import Mathlib

/-!
Verification of the EnerGency stress-score aggregation pipeline.

The scoring core of the repository is a handful of pure arithmetic
functions; we embed them shallowly over `ℚ` (JavaScript numbers carry
exact decimal literals here, and every formula is rational arithmetic).

Sources embedded:
* `src/services/femaData.ts` — `calculateDisasterRiskScore`
* `src/unnamed/part_004` (energy service) — `calculatePeakDemand`,
  `calculateEnergyStressScore`
* `src/services/dataAggregator.ts` — `calculateMigrationStressScore`
* `src/components/RealMapView.tsx` — `clampScore`, `getSeasonalAdjustment`,
  `getForecastScore`, `getForecastLevel`
* `src/services/emergencyMetricsAggregator.ts` — the per-county snapshot
  computation inside `fetchEmergencyMetrics` (lines 74–124)
-/

namespace EnerGency

/-! ## Data model (from the TypeScript record shapes) -/

/-- A FEMA disaster declaration, restricted to the fields the scorer reads.
`declarationDate` is the epoch-millisecond timestamp `new Date(d.declarationDate).getTime()`. -/
structure DisasterDeclaration where
  incidentType : String
  declarationDate : ℚ
deriving DecidableEq

/-- One energy-demand sample (fields read by the energy scorer). -/
structure EnergyDemand where
  hour : ℚ
  demand : ℚ
deriving DecidableEq

/-- Cooling/warming cost record (fields read by the energy scorer). -/
structure CoolingWarmingCosts where
  coolingCosts : ℚ
  heatingCosts : ℚ
  totalEnergyBurden : ℚ
deriving DecidableEq

/-- The four-tier stress level. -/
inductive StressLevel where
  | Low
  | Moderate
  | High
  | Critical
deriving DecidableEq

/-! ## Disaster Risk Scorer (`femaData.ts`, `calculateDisasterRiskScore`) -/

/-- Milliseconds per year, as in `(365 * 24 * 60 * 60 * 1000)`. -/
def msPerYear : ℚ := 365 * 24 * 60 * 60 * 1000

/-- Recency weight of one declaration:
`Math.max(0, 1 - (yearsAgo / 10))` with `yearsAgo = (now - declarationTime) / msPerYear`. -/
def recencyWeight (now : ℚ) (d : DisasterDeclaration) : ℚ :=
  max 0 (1 - ((now - d.declarationDate) / msPerYear) / 10)

/-- `new Set(declarations.map(d => d.incidentType)).size`. -/
def uniqueIncidentTypes (declarations : List DisasterDeclaration) : ℕ :=
  (declarations.map (·.incidentType)).dedup.length

/-- `calculateDisasterRiskScore` from `femaData.ts` (lines 103–122), with the
ambient clock `Date.now()` passed explicitly as `now`. -/
def calculateDisasterRiskScore (now : ℚ) (declarations : List DisasterDeclaration) : ℚ :=
  if declarations.length = 0 then 0
  else
    let weightedCount := (declarations.map (recencyWeight now)).sum
    let frequencyScore := min (weightedCount / 10) 1 * 60
    let diversityScore := min ((uniqueIncidentTypes declarations : ℚ) / 5) 1 * 40
    frequencyScore + diversityScore

/-! ## Energy Stress Scorer (energy service, `calculatePeakDemand` and
`calculateEnergyStressScore`) -/

/-- `Math.max(...values)` over a list of rationals (meaningful for nonempty input). -/
def listMax : List ℚ → ℚ
  | [] => 0
  | [x] => x
  | x :: y :: t => max x (listMax (y :: t))

/-- Result of `calculatePeakDemand`: `{ peak, peakHour, average }`. -/
structure PeakDemandResult where
  peak : ℚ
  peakHour : ℚ
  average : ℚ
deriving DecidableEq

/-- `calculatePeakDemand` from the energy service (lines 116–134). -/
def calculatePeakDemand (demands : List EnergyDemand) : PeakDemandResult :=
  if demands.length = 0 then ⟨0, 0, 0⟩
  else
    { peak := listMax (demands.map (·.demand))
      peakHour := ((demands.find? (fun d =>
          d.demand = listMax (demands.map (·.demand)))).map (·.hour)).getD 0
      average := (demands.map (·.demand)).sum / (demands.length : ℚ) }

/-- `const peakRatio = average > 0 ? peak / average : 1` — the peak-to-average
ratio used inside `calculateEnergyStressScore`. -/
def peakRatio (demands : List EnergyDemand) : ℚ :=
  if (calculatePeakDemand demands).average > 0 then
    (calculatePeakDemand demands).peak / (calculatePeakDemand demands).average
  else 1

/-- `calculateEnergyStressScore` from the energy service (lines 139–153):
`ratioScore + burdenScore`. -/
def calculateEnergyStressScore (demands : List EnergyDemand)
    (costs : CoolingWarmingCosts) : ℚ :=
  min ((peakRatio demands - 1) * 50) 40 + min (costs.totalEnergyBurden * 5) 60

/-! ## Migration Stress Scorer (`dataAggregator.ts`, lines 171–190) -/

/-- `calculateMigrationStressScore(netMigration, totalPopulation)`. -/
def calculateMigrationStressScore (netMigration totalPopulation : ℚ) : ℚ :=
  if totalPopulation = 0 then 0
  else if netMigration / totalPopulation * 100 ≥ 0 then 0
  else min (|netMigration / totalPopulation * 100| * 10) 100

/-! ## Forecast Projector (`RealMapView.tsx`, lines 128–150) -/

/-- A JavaScript `Date` restricted to what the forecast reads:
`getMonth()` (0 = January … 11 = December) and `getFullYear()`. -/
structure JSDate where
  year : ℤ
  month : ℕ
deriving DecidableEq

/-- `clampScore = (value) => Math.max(0, Math.min(100, value))`. -/
def clampScore (value : ℚ) : ℚ :=
  max 0 (min 100 value)

/-- `getSeasonalAdjustment` from `RealMapView.tsx` (month is 0-indexed:
5 = June, 9 = October, 11 = December). -/
def getSeasonalAdjustment (date : JSDate) : ℚ :=
  if 5 ≤ date.month ∧ date.month ≤ 9 then 12
  else if date.month = 11 ∨ date.month ≤ 1 then 9
  else 5

/-- `getForecastScore` from `RealMapView.tsx`, with the base score, current
date and disaster count passed explicitly. -/
def getForecastScore (base : ℚ) (date : JSDate) (disasterCount : ℚ) : ℚ :=
  clampScore (base + getSeasonalAdjustment date
    + ((date.year - 2020 : ℤ) : ℚ) * 1.5 + min (disasterCount * 0.8) 10)

/-- `getForecastLevel` from `RealMapView.tsx` (lines 145–150). -/
def getForecastLevel (score : ℚ) : StressLevel :=
  if score ≥ 75 then .Critical
  else if score ≥ 50 then .High
  else if score ≥ 25 then .Moderate
  else .Low

/-! ## Overall Stress Combiner
(`emergencyMetricsAggregator.ts`, `fetchEmergencyMetrics`, lines 74–124) -/

/-- The stress-level assignment in `fetchEmergencyMetrics`:
starts at `'Low'` and upgrades through the fixed thresholds. -/
def aggregatorStressLevel (overallStressScore : ℚ) : StressLevel :=
  if overallStressScore ≥ 75 then .Critical
  else if overallStressScore ≥ 50 then .High
  else if overallStressScore ≥ 25 then .Moderate
  else .Low

/-- The score fields of one emitted metrics entry. -/
structure RegionScoreSnapshot where
  disasterStressScore : ℚ
  energyStressScore : ℚ
  migrationStressScore : ℚ
  overallStressScore : ℚ
  stressLevel : StressLevel
  isTopStressed : Bool
deriving DecidableEq

/-- `disastersData ? calculateDisasterRiskScore(disastersData.recent) : 0`. -/
def aggDisasterScore (now : ℚ)
    (disastersRecent : Option (List DisasterDeclaration)) : ℚ :=
  match disastersRecent with
  | some recent => calculateDisasterRiskScore now recent
  | none => 0

/-- `costData && demandData.length > 0 ? calculateEnergyStressScore(demandData, costData) : 0`. -/
def aggEnergyScore (costData : Option CoolingWarmingCosts)
    (demandData : List EnergyDemand) : ℚ :=
  match costData with
  | some costs =>
      if 0 < demandData.length then calculateEnergyStressScore demandData costs else 0
  | none => 0

/-- The weighted blend inside `fetchEmergencyMetrics`:
`disaster * 0.4 + energy * 0.4 + migration * 0.2`. -/
def overallStressScoreOf (disaster energy migration : ℚ) : ℚ :=
  disaster * 0.4 + energy * 0.4 + migration * 0.2

/-- The per-county score computation of `fetchEmergencyMetrics`
(lines 74–124): sub-scores with their fallback-to-0 guards, the weighted
blend, the threshold level, and the top-stressed flag.
`disastersRecent` is `disastersData?.recent`; `costData` is absent when no
cost record exists for the county. -/
def fetchEmergencyMetricsScores (now : ℚ)
    (disastersRecent : Option (List DisasterDeclaration))
    (netMigration populationEstimate : ℚ)
    (costData : Option CoolingWarmingCosts)
    (demandData : List EnergyDemand) : RegionScoreSnapshot :=
  { disasterStressScore := aggDisasterScore now disastersRecent
    energyStressScore := aggEnergyScore costData demandData
    migrationStressScore := calculateMigrationStressScore netMigration populationEstimate
    overallStressScore := overallStressScoreOf (aggDisasterScore now disastersRecent)
      (aggEnergyScore costData demandData)
      (calculateMigrationStressScore netMigration populationEstimate)
    stressLevel := aggregatorStressLevel (overallStressScoreOf
      (aggDisasterScore now disastersRecent)
      (aggEnergyScore costData demandData)
      (calculateMigrationStressScore netMigration populationEstimate))
    isTopStressed := decide (overallStressScoreOf
      (aggDisasterScore now disastersRecent)
      (aggEnergyScore costData demandData)
      (calculateMigrationStressScore netMigration populationEstimate) ≥ 70) }

/-! ## Specification-side definitions (stated from the spec's words, for
refinement comparisons) -/

/-- `clamp(v, lo, hi)` as the spec writes it. -/
def clamp (v lo hi : ℚ) : ℚ :=
  max lo (min v hi)

/-- Spec formula for the disaster risk score: per-record recency weight
`max(0, 1 − yearsSinceDeclaration/10)`, `frequencyScore = min(weightedCount/10,1)×60`,
`diversityScore = min(uniqueTypes/5,1)×40`, empty list ⇒ 0. -/
def specDisasterRiskScore (now : ℚ) (declarations : List DisasterDeclaration) : ℚ :=
  match declarations with
  | [] => 0
  | _ =>
    let yearsSince := fun (d : DisasterDeclaration) => (now - d.declarationDate) / msPerYear
    let weightedCount := (declarations.map (fun d => max 0 (1 - yearsSince d / 10))).sum
    min (weightedCount / 10) 1 * 60
      + min ((uniqueIncidentTypes declarations : ℚ) / 5) 1 * 40

/-- Seasonal adjustment exactly as claim C2 words it: 12 if the month is in
[June..October) — i.e. June, July, August, September but not October —
9 for December, January, February, else 5. -/
def claimedSeasonalAdjustment (date : JSDate) : ℚ :=
  if 5 ≤ date.month ∧ date.month ≤ 8 then 12
  else if date.month = 11 ∨ date.month ≤ 1 then 9
  else 5

/-- Forecast score exactly as claim C2 words it (using
`claimedSeasonalAdjustment` for the seasonal term). -/
def claimedForecastScore (base : ℚ) (date : JSDate) (disasterCount : ℚ) : ℚ :=
  clamp (base + claimedSeasonalAdjustment date
    + ((date.year - 2020 : ℤ) : ℚ) * 1.5 + min (disasterCount * 0.8) 10) 0 100

/-- Seasonal adjustment as amended: 12 if the month is June through October
inclusive, 9 for December, January, February, else 5. -/
def amendedSeasonalAdjustment (date : JSDate) : ℚ :=
  if 5 ≤ date.month ∧ date.month ≤ 9 then 12
  else if date.month = 11 ∨ date.month ≤ 1 then 9
  else 5

/-! ## Helper lemmas -/

lemma le_listMax_of_mem (l : List ℚ) (x : ℚ) (h : x ∈ l) : x ≤ listMax l := by
  induction l with
  | nil => cases h
  | cons a t ih =>
    cases t with
    | nil =>
      rw [List.mem_singleton] at h
      subst h
      exact le_of_eq rfl
    | cons b t2 =>
      rcases List.mem_cons.mp h with h1 | h2
      · subst h1
        exact le_max_left _ _
      · exact le_trans (ih h2) (le_max_right _ _)

lemma sum_le_length_mul_listMax (l : List ℚ) : l.sum ≤ (l.length : ℚ) * listMax l := by
  have h := List.sum_le_card_nsmul l (listMax l) (fun x hx => le_listMax_of_mem l x hx)
  simpa [nsmul_eq_mul] using h

lemma average_le_peak (demands : List EnergyDemand) (h : demands ≠ []) :
    (calculatePeakDemand demands).average ≤ (calculatePeakDemand demands).peak := by
  have hlen : ¬ demands.length = 0 := by
    simpa [List.length_eq_zero] using h
  have hpos : (0 : ℚ) < (demands.length : ℚ) := by
    exact_mod_cast Nat.pos_of_ne_zero hlen
  unfold calculatePeakDemand
  rw [if_neg hlen]
  show (demands.map (·.demand)).sum / (demands.length : ℚ) ≤ listMax (demands.map (·.demand))
  rw [div_le_iff₀ hpos]
  calc (demands.map (·.demand)).sum
      ≤ ((demands.map (·.demand)).length : ℚ) * listMax (demands.map (·.demand)) :=
        sum_le_length_mul_listMax _
    _ = listMax (demands.map (·.demand)) * (demands.length : ℚ) := by
        rw [List.length_map]; ring

lemma calculatePeakDemand_nil : calculatePeakDemand [] = ⟨0, 0, 0⟩ := rfl

lemma one_le_peakRatio (demands : List EnergyDemand) : 1 ≤ peakRatio demands := by
  unfold peakRatio
  split
  · rename_i hpos
    have hne : demands ≠ [] := by
      intro he
      rw [he, calculatePeakDemand_nil] at hpos
      norm_num at hpos
    exact (one_le_div hpos).mpr (average_le_peak demands hne)
  · exact le_refl 1

lemma ratioTerm_nonneg (demands : List EnergyDemand) :
    0 ≤ (peakRatio demands - 1) * 50 := by
  have h := one_le_peakRatio demands
  nlinarith

lemma ratioScore_nonneg (demands : List EnergyDemand) :
    0 ≤ min ((peakRatio demands - 1) * 50) 40 :=
  le_min (ratioTerm_nonneg demands) (by norm_num)

lemma calculateEnergyStressScore_bounds (demands : List EnergyDemand)
    (costs : CoolingWarmingCosts) (hb : 0 ≤ costs.totalEnergyBurden) :
    0 ≤ calculateEnergyStressScore demands costs ∧
      calculateEnergyStressScore demands costs ≤ 100 := by
  unfold calculateEnergyStressScore
  constructor
  · have h1 := ratioScore_nonneg demands
    have h2 : 0 ≤ min (costs.totalEnergyBurden * 5) 60 :=
      le_min (by positivity) (by norm_num)
    linarith
  · have h1 : min ((peakRatio demands - 1) * 50) 40 ≤ 40 := min_le_right _ _
    have h2 : min (costs.totalEnergyBurden * 5) 60 ≤ 60 := min_le_right _ _
    linarith

lemma calculateDisasterRiskScore_bounds (now : ℚ) (l : List DisasterDeclaration) :
    0 ≤ calculateDisasterRiskScore now l ∧ calculateDisasterRiskScore now l ≤ 100 := by
  unfold calculateDisasterRiskScore
  split
  · norm_num
  · have hw : 0 ≤ (l.map (recencyWeight now)).sum := by
      apply List.sum_nonneg
      intro x hx
      rcases List.mem_map.mp hx with ⟨d, _, rfl⟩
      exact le_max_left 0 _
    have hfreq0 : 0 ≤ min ((l.map (recencyWeight now)).sum / 10) 1 :=
      le_min (by positivity) zero_le_one
    have hfreq1 : min ((l.map (recencyWeight now)).sum / 10) 1 ≤ 1 := min_le_right _ _
    have hdiv0 : 0 ≤ min ((uniqueIncidentTypes l : ℚ) / 5) 1 :=
      le_min (by positivity) zero_le_one
    have hdiv1 : min ((uniqueIncidentTypes l : ℚ) / 5) 1 ≤ 1 := min_le_right _ _
    constructor <;> nlinarith

lemma calculateMigrationStressScore_bounds (net pop : ℚ) :
    0 ≤ calculateMigrationStressScore net pop ∧
      calculateMigrationStressScore net pop ≤ 100 := by
  unfold calculateMigrationStressScore
  split
  · norm_num
  · split
    · norm_num
    · exact ⟨le_min (by positivity) (by norm_num), min_le_right _ _⟩

lemma peakRatio_nil : peakRatio [] = 1 := by
  simp [peakRatio, calculatePeakDemand_nil]

lemma peakRatio_eq_one_of_flat (demands : List EnergyDemand)
    (h : (calculatePeakDemand demands).peak = (calculatePeakDemand demands).average) :
    peakRatio demands = 1 := by
  unfold peakRatio
  split
  · rename_i hpos
    rw [h]
    exact div_self (ne_of_gt hpos)
  · rfl

lemma burden_clamp_eq (costs : CoolingWarmingCosts) (hb : 0 ≤ costs.totalEnergyBurden) :
    clamp (costs.totalEnergyBurden * 5) 0 60 = min (costs.totalEnergyBurden * 5) 60 :=
  max_eq_right (le_min (by positivity) (by norm_num))

lemma combiner_invariants (d e m : ℚ) (hd0 : 0 ≤ d) (hd1 : d ≤ 100)
    (he0 : 0 ≤ e) (he1 : e ≤ 100) (hm0 : 0 ≤ m) (hm1 : m ≤ 100) :
    overallStressScoreOf d e m = 0.4 * d + 0.4 * e + 0.2 * m ∧
      0 ≤ overallStressScoreOf d e m ∧ overallStressScoreOf d e m ≤ 100 := by
  unfold overallStressScoreOf
  exact ⟨by ring, by linarith, by linarith⟩

/-! ## Claim theorems -/

/-- C3: the Disaster Risk Scorer returns `frequencyScore + diversityScore`
with recency weights `max(0, 1 − yearsSinceDeclaration/10)`,
`frequencyScore = min(weightedCount/10, 1)×60`,
`diversityScore = min(uniqueTypes/5, 1)×40`, and the empty list yields 0. -/
theorem calculateDisasterRiskScore_matches_spec (now : ℚ)
    (l : List DisasterDeclaration) :
    calculateDisasterRiskScore now l = specDisasterRiskScore now l ∧
      calculateDisasterRiskScore now [] = 0 := by
  constructor
  · cases l with
    | nil => rfl
    | cons a t => rfl
  · rfl

/-- C5: for population > 0 the Migration Stress Scorer returns 0 whenever
netMigration ≥ 0, returns exactly 100 at the −10% saturation boundary, and
for negative rates returns `min(|ratePct|×10, 100)`. -/
theorem calculateMigrationStressScore_spec (net pop : ℚ) (hpop : 0 < pop) :
    (0 ≤ net → calculateMigrationStressScore net pop = 0) ∧
      (net / pop = -(1/10) → calculateMigrationStressScore net pop = 100) ∧
      (net / pop * 100 < 0 →
        calculateMigrationStressScore net pop = min (|net / pop * 100| * 10) 100) := by
  have hne : pop ≠ 0 := ne_of_gt hpop
  unfold calculateMigrationStressScore
  rw [if_neg hne]
  refine ⟨?_, ?_, ?_⟩
  · intro hnet
    rw [if_pos]
    exact mul_nonneg (div_nonneg hnet hpop.le) (by norm_num)
  · intro hrate
    rw [hrate]
    norm_num
  · intro hneg
    rw [if_neg (not_le.mpr hneg)]

/-- C5 witness: instantiated at netMigration = −10, population = 100. -/
theorem calculateMigrationStressScore_spec_witness :
    (0 ≤ (-10 : ℚ) → calculateMigrationStressScore (-10) 100 = 0) ∧
      ((-10 : ℚ) / 100 = -(1/10) → calculateMigrationStressScore (-10) 100 = 100) ∧
      ((-10 : ℚ) / 100 * 100 < 0 →
        calculateMigrationStressScore (-10) 100 = min (|(-10 : ℚ) / 100 * 100| * 10) 100) :=
  calculateMigrationStressScore_spec (-10) 100 (by norm_num)

/-- C7: the tiering function uses inclusive thresholds 75/50/25, the
aggregator's stress level uses the same thresholds, and the boundary values
24.999/25/74.999/75 land where the spec says. -/
theorem tiering_thresholds :
    (∀ s : ℚ, getForecastLevel s =
        (if s ≥ 75 then StressLevel.Critical
          else if s ≥ 50 then StressLevel.High
          else if s ≥ 25 then StressLevel.Moderate
          else StressLevel.Low) ∧
      aggregatorStressLevel s = getForecastLevel s) ∧
      getForecastLevel 24.999 ≠ StressLevel.Moderate ∧
      getForecastLevel 24.999 = StressLevel.Low ∧
      getForecastLevel 25 = StressLevel.Moderate ∧
      getForecastLevel 74.999 = StressLevel.High ∧
      getForecastLevel 75 = StressLevel.Critical := by
  refine ⟨fun s => ⟨rfl, rfl⟩, ?_, ?_, ?_, ?_, ?_⟩
  · have h : getForecastLevel 24.999 = StressLevel.Low := by
      norm_num [getForecastLevel]
    rw [h]
    decide
  · norm_num [getForecastLevel]
  · norm_num [getForecastLevel]
  · norm_num [getForecastLevel]
  · norm_num [getForecastLevel]

/-- C8: at the out-of-domain input netMigration = 10,
totalPopulation = −100 the Migration Stress Scorer does not fail: it
silently returns 100, a value inside [0,100]. -/
theorem migration_negative_population_silent_score :
    calculateMigrationStressScore 10 (-100) = 100 ∧
      0 ≤ calculateMigrationStressScore 10 (-100) ∧
      calculateMigrationStressScore 10 (-100) ≤ 100 := by
  norm_num [calculateMigrationStressScore]

/-- C10: for nonempty demand lists the peak is at least the mean, the empty
list yields peak = average = 0 with peakRatio defaulting to 1, and the
uncapped ratio term `(peakRatio − 1) × 50` is never negative. -/
theorem calculatePeakDemand_max_ge_mean :
    (∀ demands : List EnergyDemand, demands ≠ [] →
        (calculatePeakDemand demands).average ≤ (calculatePeakDemand demands).peak) ∧
      calculatePeakDemand [] = ⟨0, 0, 0⟩ ∧
      peakRatio [] = 1 ∧
      ∀ demands : List EnergyDemand, 0 ≤ (peakRatio demands - 1) * 50 :=
  ⟨average_le_peak, rfl, peakRatio_nil, ratioTerm_nonneg⟩

/-- C10 witness: instantiated at the single sample with demand 5. -/
theorem calculatePeakDemand_max_ge_mean_witness :
    ([⟨0, 5⟩] : List EnergyDemand) ≠ [] ∧
      (calculatePeakDemand [⟨0, 5⟩]).average ≤ (calculatePeakDemand [⟨0, 5⟩]).peak :=
  ⟨List.cons_ne_nil _ _,
    calculatePeakDemand_max_ge_mean.1 [⟨0, 5⟩] (List.cons_ne_nil _ _)⟩

/-- C4: for non-negative energy burden the Energy Stress Scorer equals
`clamp((peakRatio−1)×50, 0, 40) + clamp(totalEnergyBurdenPct×5, 0, 60)`;
with no samples the ratio part vanishes, and flat demand (peak = average)
makes the score equal the burden score exactly. -/
theorem calculateEnergyStressScore_spec (demands : List EnergyDemand)
    (costs : CoolingWarmingCosts) (hb : 0 ≤ costs.totalEnergyBurden) :
    calculateEnergyStressScore demands costs =
        clamp ((peakRatio demands - 1) * 50) 0 40 +
          clamp (costs.totalEnergyBurden * 5) 0 60 ∧
      (demands = [] →
        calculateEnergyStressScore demands costs =
          clamp (costs.totalEnergyBurden * 5) 0 60) ∧
      ((calculatePeakDemand demands).peak = (calculatePeakDemand demands).average →
        calculateEnergyStressScore demands costs =
          clamp (costs.totalEnergyBurden * 5) 0 60) := by
  have hclampR : clamp ((peakRatio demands - 1) * 50) 0 40 =
      min ((peakRatio demands - 1) * 50) 40 :=
    max_eq_right (ratioScore_nonneg demands)
  have hclampB := burden_clamp_eq costs hb
  refine ⟨?_, ?_, ?_⟩
  · unfold calculateEnergyStressScore
    rw [hclampR, hclampB]
  · intro he
    subst he
    unfold calculateEnergyStressScore
    rw [peakRatio_nil, hclampB]
    norm_num
  · intro hflat
    unfold calculateEnergyStressScore
    rw [peakRatio_eq_one_of_flat demands hflat, hclampB]
    norm_num

/-- C4 witness: instantiated at one sample of demand 2 and burden 4 %. -/
theorem calculateEnergyStressScore_spec_witness :
    calculateEnergyStressScore [⟨0, 2⟩] ⟨0, 0, 4⟩ =
        clamp ((peakRatio [⟨0, 2⟩] - 1) * 50) 0 40 +
          clamp ((⟨0, 0, 4⟩ : CoolingWarmingCosts).totalEnergyBurden * 5) 0 60 ∧
      (([⟨0, 2⟩] : List EnergyDemand) = [] →
        calculateEnergyStressScore [⟨0, 2⟩] ⟨0, 0, 4⟩ =
          clamp ((⟨0, 0, 4⟩ : CoolingWarmingCosts).totalEnergyBurden * 5) 0 60) ∧
      ((calculatePeakDemand [⟨0, 2⟩]).peak = (calculatePeakDemand [⟨0, 2⟩]).average →
        calculateEnergyStressScore [⟨0, 2⟩] ⟨0, 0, 4⟩ =
          clamp ((⟨0, 0, 4⟩ : CoolingWarmingCosts).totalEnergyBurden * 5) 0 60) :=
  calculateEnergyStressScore_spec [⟨0, 2⟩] ⟨0, 0, 4⟩ (by norm_num)

/-- C6: each scorer returns a value in [0,100] on its documented domain. -/
theorem scorers_output_bounded (now : ℚ) (l : List DisasterDeclaration)
    (demands : List EnergyDemand) (costs : CoolingWarmingCosts)
    (hb : 0 ≤ costs.totalEnergyBurden) (net pop : ℚ) (_hpop : 0 < pop) :
    (0 ≤ calculateDisasterRiskScore now l ∧ calculateDisasterRiskScore now l ≤ 100) ∧
      (0 ≤ calculateEnergyStressScore demands costs ∧
        calculateEnergyStressScore demands costs ≤ 100) ∧
      (0 ≤ calculateMigrationStressScore net pop ∧
        calculateMigrationStressScore net pop ≤ 100) :=
  ⟨calculateDisasterRiskScore_bounds now l,
    calculateEnergyStressScore_bounds demands costs hb,
    calculateMigrationStressScore_bounds net pop⟩

/-- C6 witness: instantiated at concrete inputs for all three scorers. -/
theorem scorers_output_bounded_witness :
    (0 ≤ calculateDisasterRiskScore 0 [⟨"A", 0⟩] ∧
        calculateDisasterRiskScore 0 [⟨"A", 0⟩] ≤ 100) ∧
      (0 ≤ calculateEnergyStressScore [⟨0, 2⟩] ⟨0, 0, 4⟩ ∧
        calculateEnergyStressScore [⟨0, 2⟩] ⟨0, 0, 4⟩ ≤ 100) ∧
      (0 ≤ calculateMigrationStressScore (-10) 100 ∧
        calculateMigrationStressScore (-10) 100 ≤ 100) :=
  scorers_output_bounded 0 [⟨"A", 0⟩] [⟨0, 2⟩] ⟨0, 0, 4⟩ (by norm_num) (-10) 100
    (by norm_num)

/-- C9: with identical declaration dates (hence identical recency weights)
a list with at least as many distinct incident types never scores lower. -/
theorem disaster_diversity_monotone (now : ℚ) (l1 l2 : List DisasterDeclaration)
    (hdates : l1.map (·.declarationDate) = l2.map (·.declarationDate))
    (htypes : uniqueIncidentTypes l1 ≤ uniqueIncidentTypes l2) :
    calculateDisasterRiskScore now l1 ≤ calculateDisasterRiskScore now l2 := by
  have hlen : l1.length = l2.length := by
    have := congrArg List.length hdates
    simpa using this
  unfold calculateDisasterRiskScore
  by_cases h0 : l1.length = 0
  · rw [if_pos h0, if_pos (hlen ▸ h0)]
  · rw [if_neg h0, if_neg (hlen ▸ h0)]
    have hw : l1.map (recencyWeight now) = l2.map (recencyWeight now) := by
      calc l1.map (recencyWeight now)
          = (l1.map (·.declarationDate)).map
              (fun t => max 0 (1 - ((now - t) / msPerYear) / 10)) := by
            rw [List.map_map]; rfl
        _ = (l2.map (·.declarationDate)).map
              (fun t => max 0 (1 - ((now - t) / msPerYear) / 10)) := by
            rw [hdates]
        _ = l2.map (recencyWeight now) := by
            rw [List.map_map]; rfl
    rw [hw]
    have hcast : ((uniqueIncidentTypes l1 : ℚ)) ≤ (uniqueIncidentTypes l2 : ℚ) :=
      Nat.cast_le.mpr htypes
    have hmin : min ((uniqueIncidentTypes l1 : ℚ) / 5) 1 ≤
        min ((uniqueIncidentTypes l2 : ℚ) / 5) 1 :=
      min_le_min (by linarith) (le_refl 1)
    nlinarith

/-- C9 witness: duplicate type list versus two distinct types, same dates. -/
theorem disaster_diversity_monotone_witness :
    ([⟨"A", 0⟩, ⟨"A", 0⟩] : List DisasterDeclaration).map (·.declarationDate) =
        ([⟨"A", 0⟩, ⟨"B", 0⟩] : List DisasterDeclaration).map (·.declarationDate) ∧
      uniqueIncidentTypes [⟨"A", 0⟩, ⟨"A", 0⟩] ≤
        uniqueIncidentTypes [⟨"A", 0⟩, ⟨"B", 0⟩] ∧
      calculateDisasterRiskScore 0 [⟨"A", 0⟩, ⟨"A", 0⟩] ≤
        calculateDisasterRiskScore 0 [⟨"A", 0⟩, ⟨"B", 0⟩] :=
  ⟨rfl, by decide,
    disaster_diversity_monotone 0 _ _ rfl (by decide)⟩

/-- C2 counterexample: in October (month index 9) the code adds the summer
bump 12, while the claim's half-open [June..October) formula adds 5, so at
base 50, October 2020, zero disasters the code yields 62 and the claimed
formula 55. -/
theorem getForecastScore_october_counterexample :
    getForecastScore 50 ⟨2020, 9⟩ 0 ≠ claimedForecastScore 50 ⟨2020, 9⟩ 0 ∧
      getForecastScore 50 ⟨2020, 9⟩ 0 = 62 ∧
      claimedForecastScore 50 ⟨2020, 9⟩ 0 = 55 := by
  norm_num [getForecastScore, claimedForecastScore, getSeasonalAdjustment,
    claimedSeasonalAdjustment, clampScore, clamp]

/-- C2 amended: the Forecast Projector returns
`clamp(base + seasonal + trend + momentum, 0, 100)` where the seasonal bump
12 applies to June through October inclusive. -/
theorem getForecastScore_amended_eq (base : ℚ) (date : JSDate) (dc : ℚ) :
    getForecastScore base date dc =
      clamp (base + amendedSeasonalAdjustment date +
        ((date.year - 2020 : ℤ) : ℚ) * 1.5 + min (dc * 0.8) 10) 0 100 := by
  unfold getForecastScore clampScore clamp amendedSeasonalAdjustment getSeasonalAdjustment
  rw [min_comm]

/-- C1: every snapshot produced by the metrics-aggregator path satisfies the
0.4/0.4/0.2 blend identity, stays in [0,100] when each sub-score does, draws
its stress level from the fixed 75/50/25 thresholds, and flags isTopStressed
exactly when the overall score is at least 70. -/
theorem fetchEmergencyMetrics_snapshot_invariants (now : ℚ)
    (dr : Option (List DisasterDeclaration)) (net pop : ℚ)
    (cd : Option CoolingWarmingCosts) (dd : List EnergyDemand)
    (hd0 : 0 ≤ (fetchEmergencyMetricsScores now dr net pop cd dd).disasterStressScore)
    (hd1 : (fetchEmergencyMetricsScores now dr net pop cd dd).disasterStressScore ≤ 100)
    (he0 : 0 ≤ (fetchEmergencyMetricsScores now dr net pop cd dd).energyStressScore)
    (he1 : (fetchEmergencyMetricsScores now dr net pop cd dd).energyStressScore ≤ 100)
    (hm0 : 0 ≤ (fetchEmergencyMetricsScores now dr net pop cd dd).migrationStressScore)
    (hm1 : (fetchEmergencyMetricsScores now dr net pop cd dd).migrationStressScore ≤ 100) :
    (fetchEmergencyMetricsScores now dr net pop cd dd).overallStressScore =
        0.4 * (fetchEmergencyMetricsScores now dr net pop cd dd).disasterStressScore +
          0.4 * (fetchEmergencyMetricsScores now dr net pop cd dd).energyStressScore +
          0.2 * (fetchEmergencyMetricsScores now dr net pop cd dd).migrationStressScore ∧
      (0 ≤ (fetchEmergencyMetricsScores now dr net pop cd dd).overallStressScore ∧
        (fetchEmergencyMetricsScores now dr net pop cd dd).overallStressScore ≤ 100) ∧
      (fetchEmergencyMetricsScores now dr net pop cd dd).stressLevel =
        (if (fetchEmergencyMetricsScores now dr net pop cd dd).overallStressScore ≥ 75
          then StressLevel.Critical
          else if (fetchEmergencyMetricsScores now dr net pop cd dd).overallStressScore ≥ 50
          then StressLevel.High
          else if (fetchEmergencyMetricsScores now dr net pop cd dd).overallStressScore ≥ 25
          then StressLevel.Moderate
          else StressLevel.Low) ∧
      ((fetchEmergencyMetricsScores now dr net pop cd dd).isTopStressed = true ↔
        (fetchEmergencyMetricsScores now dr net pop cd dd).overallStressScore ≥ 70) := by
  obtain ⟨h1, h2, h3⟩ := combiner_invariants (aggDisasterScore now dr)
    (aggEnergyScore cd dd) (calculateMigrationStressScore net pop)
    hd0 hd1 he0 he1 hm0 hm1
  refine ⟨h1, ⟨h2, h3⟩, rfl, ?_⟩
  show decide (overallStressScoreOf (aggDisasterScore now dr) (aggEnergyScore cd dd)
    (calculateMigrationStressScore net pop) ≥ 70) = true ↔ _
  rw [decide_eq_true_eq]
  exact Iff.rfl

/-- C1 witness: instantiated at a county with no disaster or cost data and a
−5 % net outflow on population 100. -/
theorem fetchEmergencyMetrics_snapshot_invariants_witness :
    (fetchEmergencyMetricsScores 0 none (-5) 100 none []).overallStressScore =
        0.4 * (fetchEmergencyMetricsScores 0 none (-5) 100 none []).disasterStressScore +
          0.4 * (fetchEmergencyMetricsScores 0 none (-5) 100 none []).energyStressScore +
          0.2 * (fetchEmergencyMetricsScores 0 none (-5) 100 none []).migrationStressScore ∧
      (0 ≤ (fetchEmergencyMetricsScores 0 none (-5) 100 none []).overallStressScore ∧
        (fetchEmergencyMetricsScores 0 none (-5) 100 none []).overallStressScore ≤ 100) ∧
      (fetchEmergencyMetricsScores 0 none (-5) 100 none []).stressLevel =
        (if (fetchEmergencyMetricsScores 0 none (-5) 100 none []).overallStressScore ≥ 75
          then StressLevel.Critical
          else if (fetchEmergencyMetricsScores 0 none (-5) 100 none []).overallStressScore ≥ 50
          then StressLevel.High
          else if (fetchEmergencyMetricsScores 0 none (-5) 100 none []).overallStressScore ≥ 25
          then StressLevel.Moderate
          else StressLevel.Low) ∧
      ((fetchEmergencyMetricsScores 0 none (-5) 100 none []).isTopStressed = true ↔
        (fetchEmergencyMetricsScores 0 none (-5) 100 none []).overallStressScore ≥ 70) :=
  fetchEmergencyMetrics_snapshot_invariants 0 none (-5) 100 none []
    (by norm_num [fetchEmergencyMetricsScores, aggDisasterScore])
    (by norm_num [fetchEmergencyMetricsScores, aggDisasterScore])
    (by norm_num [fetchEmergencyMetricsScores, aggEnergyScore])
    (by norm_num [fetchEmergencyMetricsScores, aggEnergyScore])
    (by norm_num [fetchEmergencyMetricsScores, calculateMigrationStressScore])
    (by norm_num [fetchEmergencyMetricsScores, calculateMigrationStressScore])

end EnerGency
